import Mathlib

/-!
Shallow embedding of `ble-weatherstation-central` (Rust) for checking its
natural-language specification.

Source files embedded here:
* `src/sensor.rs` — validated sensor quantities and their `Display` impls
* `src/bluetooth.rs` — characteristic decoding (`Weatherstation::read_values`),
  object-graph interpretation (`interpret_object`), and the poll-loop actions
* `src/bluetooth/address.rs` — `BluetoothAddress` parse/format
* `src/db.rs` — the storage engine (registry + per-address logs, the
  write-transaction guard)
* `src/tasks.rs` / `src/main.rs` — the update coordinator's snapshot step

Machine integers are modelled as `Nat`/`Int` with explicit bounds or `%`
where overflow matters; Rust `Result`/`Option` become `Except`/`Option`.
Strings manipulated character-wise by the Rust code are modelled as
`List Char` (the Rust code in question only ever succeeds on ASCII input,
where byte length and character count coincide).
-/

/-! ## `src/sensor.rs` -/

/-- Embedding of `impl TryFrom<i16> for Celsius` (`src/sensor.rs:11`):
values below `-273_15` (absolute zero in hundredths of a degree) are a
domain error, everything else is accepted unchanged. -/
def celsius_try_from (value : Int) : Except String Int :=
  if value < -27315 then
    .error "Received temperature lower than absolute zero"
  else
    .ok value

/-- Embedding of `impl TryFrom<u16> for RelativeHumidity`
(`src/sensor.rs:43`): values above `100_00` (hundredths of a percent) are a
domain error. -/
def relative_humidity_try_from (value : Nat) : Except String Nat :=
  if value > 10000 then
    .error "Invalid relative humidity, cannot be higher than 100%"
  else
    .ok value

/-- Embedding of `impl From<u32> for Pascal` (`src/sensor.rs:62`):
construction is infallible. -/
def pascal_from (value : Nat) : Nat := value

/-- Rust's `{:0>width$}` format: right-align in the given width, filling
with `'0'` on the left. Used by the sensor `Display` impls via `{:0>2}` and
`{:0>1}`. -/
def pad_zero_left (width : Nat) (s : String) : String :=
  if s.length < width then String.mk (List.replicate (width - s.length) '0') ++ s else s

/-- Embedding of `impl Display for Celsius` (`src/sensor.rs:27`):
`write!(f, "{}.{:0>2}°C", self.0 / 100, self.0 % 100)`. Rust `i16`
division/remainder truncate toward zero, which is `Int.tdiv`/`Int.tmod`. -/
def display_celsius (t : Int) : String :=
  toString (Int.tdiv t 100) ++ "." ++ pad_zero_left 2 (toString (Int.tmod t 100)) ++ "°C"

/-- Embedding of `impl Display for RelativeHumidity` (`src/sensor.rs:37`):
`write!(f, "{}.{:0>2}%", self.0 / 100, self.0 % 100)`. -/
def display_relative_humidity (v : Nat) : String :=
  toString (v / 100) ++ "." ++ pad_zero_left 2 (toString (v % 100)) ++ "%"

/-- Embedding of `impl Display for Pascal` (`src/sensor.rs:68`):
`write!(f, "{}.{:0>1}Pa", self.0 / 10, self.0 % 10)`. -/
def display_pascal (v : Nat) : String :=
  toString (v / 10) ++ "." ++ pad_zero_left 1 (toString (v % 10)) ++ "Pa"

/-- Embedding of `struct SensorValues` (`src/sensor.rs:75`). The component
newtypes `Celsius`/`Pascal`/`RelativeHumidity` are represented by their raw
integer payloads; validity (having passed the `TryFrom` constructors) is
tracked by `SensorValues.Valid` below. -/
structure SensorValues where
  temperature : Int
  pressure : Nat
  humidity : Nat
deriving Repr, DecidableEq

/-- A `SensorValues` that could actually have been built through the
`TryFrom` constructors on `i16`/`u32`/`u16` payloads. -/
def SensorValues.Valid (v : SensorValues) : Prop :=
  -27315 ≤ v.temperature ∧ v.temperature < 32768 ∧
    v.pressure < 4294967296 ∧ v.humidity ≤ 10000

instance (v : SensorValues) : Decidable v.Valid := by
  unfold SensorValues.Valid
  infer_instance

/-- Embedding of `struct RawSensorValues` (`src/sensor.rs:100`): the
byte-exact `(i16, u16, u32)` triple used as the on-disk log payload. -/
structure RawSensorValues where
  temperature : Int
  humidity : Nat
  pressure : Nat
deriving Repr, DecidableEq

/-- Embedding of `impl From<SensorValues> for RawSensorValues`
(`src/sensor.rs:106`). -/
def RawSensorValues.ofSensorValues (v : SensorValues) : RawSensorValues :=
  { temperature := v.temperature, humidity := v.humidity, pressure := v.pressure }

/-- Embedding of `impl TryFrom<RawSensorValues> for SensorValues`
(`src/sensor.rs:116`): re-validates each component; failure order follows
the struct literal (temperature, then pressure, then humidity). -/
def SensorValues.tryFromRaw (r : RawSensorValues) : Except String SensorValues := do
  let t ← celsius_try_from r.temperature
  let p := pascal_from r.pressure
  let h ← relative_humidity_try_from r.humidity
  .ok { temperature := t, pressure := p, humidity := h }

/-- Sanity example: the repository's own `relative_humidity_display` test. -/
example : display_relative_humidity 8001 = "80.01%" := by decide

/-! ## `src/bluetooth.rs` — characteristic decoding (`Weatherstation::read_values`) -/

/-- Big-endian read of an unsigned 16-bit integer from the first two bytes
of a buffer, as `byteorder::BigEndian::read_u16`. Bytes are `Nat`s below
256; theorems about it carry explicit length bounds because the Rust
function panics on buffers shorter than the width. -/
def read_u16_be (b : List Nat) : Nat :=
  b.getD 0 0 * 256 + b.getD 1 0

/-- Big-endian read of an unsigned 32-bit integer
(`byteorder::BigEndian::read_u32`). -/
def read_u32_be (b : List Nat) : Nat :=
  b.getD 0 0 * 16777216 + b.getD 1 0 * 65536 + b.getD 2 0 * 256 + b.getD 3 0

/-- Reinterpret an unsigned 16-bit value as the two's-complement `i16` it
encodes. -/
def i16_of_u16 (n : Nat) : Int :=
  if n < 32768 then (n : Int) else (n : Int) - 65536

/-- Big-endian read of a signed 16-bit integer
(`byteorder::BigEndian::read_i16`). -/
def read_i16_be (b : List Nat) : Int :=
  i16_of_u16 (read_u16_be b)

/-- Embedding of `Weatherstation::read_values` (`src/bluetooth.rs:66`):
given the raw byte strings of the temperature, pressure and humidity
characteristics, decode with `byteorder::BigEndian` (`read_i16`,
`read_u32`, `read_u16`) and validate through the `TryFrom` constructors
(`Pascal::from` is infallible). Only the decode/validate data path is
embedded; the D-Bus transport that fetches the bytes is outside the model. -/
def read_values (temperature_bytes pressure_bytes humidity_bytes : List Nat) :
    Except String SensorValues := do
  let temperature := read_i16_be temperature_bytes
  let pressure := read_u32_be pressure_bytes
  let humidity := read_u16_be humidity_bytes
  let t ← celsius_try_from temperature
  let h ← relative_humidity_try_from humidity
  .ok { temperature := t, pressure := pascal_from pressure, humidity := h }

/-- Little-endian read of an unsigned 16-bit integer. Spec-side only: used
to state the specification's claim that the codec is little-endian. -/
def read_u16_le (b : List Nat) : Nat :=
  b.getD 1 0 * 256 + b.getD 0 0

/-- Little-endian read of an unsigned 32-bit integer. Spec-side only. -/
def read_u32_le (b : List Nat) : Nat :=
  b.getD 3 0 * 16777216 + b.getD 2 0 * 65536 + b.getD 1 0 * 256 + b.getD 0 0

/-- Little-endian read of a signed 16-bit integer. Spec-side only. -/
def read_i16_le (b : List Nat) : Int :=
  i16_of_u16 (read_u16_le b)

/-- Modelled from the spec sentence behind C4 ("decode a fixed-width
little-endian integer ... and validate into the corresponding domain
type"): the decoder the specification describes, identical to
`read_values` except for the byte order. Used only to compare against the
code's (big-endian) `read_values`. -/
def read_values_little_endian_spec
    (temperature_bytes pressure_bytes humidity_bytes : List Nat) :
    Except String SensorValues := do
  let t ← celsius_try_from (read_i16_le temperature_bytes)
  let h ← relative_humidity_try_from (read_u16_le humidity_bytes)
  .ok { temperature := t, pressure := pascal_from (read_u32_le pressure_bytes), humidity := h }

/-! ## `src/bluetooth/address.rs` — the address codec -/

/-- Rust `char::to_digit(c, 16)`: hexadecimal digit value of a character,
accepting `0-9`, `a-f` and `A-F`. -/
def hex_digit_val (c : Char) : Option Nat :=
  if 48 ≤ c.toNat ∧ c.toNat ≤ 57 then some (c.toNat - 48)
  else if 97 ≤ c.toNat ∧ c.toNat ≤ 102 then some (c.toNat - 87)
  else if 65 ≤ c.toNat ∧ c.toNat ≤ 70 then some (c.toNat - 55)
  else none

/-- Digit-accumulation loop of `u8::from_str_radix(_, 16)`:
`checked_mul`/`checked_add` in `u8`, so any intermediate above 255 is an
overflow error. -/
def u8_hex_fold : List Char → Nat → Option Nat
  | [], acc => some acc
  | c :: cs, acc =>
    match hex_digit_val c with
    | none => none
    | some d => if acc * 16 + d > 255 then none else u8_hex_fold cs (acc * 16 + d)

/-- Embedding of `u8::from_str_radix(segment, 16)` as called by
`impl FromStr for BluetoothAddress` (`src/bluetooth/address.rs:33`).
Per Rust `core::num`: the empty string is an error; an optional leading
`'+'` sign is accepted (for an unsigned target `'-'` is not a sign, it
falls through to the digit loop and fails as a non-digit); a sign with
nothing after it is an error; the remaining characters must all be hex
digits and the value must fit in `u8`. -/
def u8_from_str_radix_16 (s : List Char) : Option Nat :=
  match s with
  | [] => none
  | c :: rest =>
    if c = '+' then
      if rest = [] then none else u8_hex_fold rest 0
    else
      u8_hex_fold s 0

/-- Rust `str::split(':')` on a character list: always yields at least one
(possibly empty) segment, and one extra segment per separator. -/
def split_colon : List Char → List (List Char)
  | [] => [[]]
  | c :: rest =>
    if c = ':' then
      [] :: split_colon rest
    else
      match split_colon rest with
      | seg :: segs => (c :: seg) :: segs
      | [] => [[c]]

/-- Embedding of `impl FromStr for BluetoothAddress`
(`src/bluetooth/address.rs:19`): reject anything whose length differs from
the 17-character example `"00:11:22:33:FF:EE"`, then fold over the
colon-separated segments, requiring each to have length 2 and to parse via
`u8::from_str_radix(_, 16)`, shifting the accumulator (`u64`, hence the
`% 2 ^ 64`) left by one byte each time. -/
def bluetooth_address_from_str (s : List Char) : Option Nat :=
  if s.length ≠ 17 then none
  else
    (split_colon s).foldlM
      (fun ret seg =>
        if seg.length ≠ 2 then none
        else (u8_from_str_radix_16 seg).map fun d => (ret * 256) % (2 ^ 64) + d)
      0

/-- Rust `{:02X}`: one uppercase hexadecimal digit. -/
def hex_digit_upper (n : Nat) : Char :=
  if n < 10 then Char.ofNat (48 + n) else Char.ofNat (65 + n - 10)

/-- Rust `{:02X}` applied to a `u8` (always exactly two digits). -/
def hex2_upper (n : Nat) : List Char :=
  [hex_digit_upper (n / 16), hex_digit_upper (n % 16)]

/-- Embedding of `impl Display for BluetoothAddress`
(`src/bluetooth/address.rs:40`): six colon-separated `{:02X}` octets,
taking `(n >> (k << 3)) as u8` for `k = 5, 4, 3, 2, 1, 0`. -/
def bluetooth_address_display (n : Nat) : List Char :=
  hex2_upper (n >>> 40 % 256) ++ ':' ::
    (hex2_upper (n >>> 32 % 256) ++ ':' ::
      (hex2_upper (n >>> 24 % 256) ++ ':' ::
        (hex2_upper (n >>> 16 % 256) ++ ':' ::
          (hex2_upper (n >>> 8 % 256) ++ ':' :: hex2_upper (n % 256)))))

/-- The canonical text form of the six octets `b5:b4:b3:b2:b1:b0`
(most-significant first), as produced by `Display`. -/
def canonical_address_chars (b5 b4 b3 b2 b1 b0 : Nat) : List Char :=
  hex2_upper b5 ++ ':' ::
    (hex2_upper b4 ++ ':' ::
      (hex2_upper b3 ++ ':' ::
        (hex2_upper b2 ++ ':' :: (hex2_upper b1 ++ ':' :: hex2_upper b0))))

/-- The 48-bit numeric value denoted by the six octets. -/
def address_of_octets (b5 b4 b3 b2 b1 b0 : Nat) : Nat :=
  ((((b5 * 256 + b4) * 256 + b3) * 256 + b2) * 256 + b1) * 256 + b0

/-- Sanity example: the repository's own `bluetooth_address_parse_roundtrip`
test string. -/
example :
    bluetooth_address_from_str ("00:11:22:33:FF:EE".toList) =
      some (address_of_octets 0 17 34 51 255 238) := by decide

/-! ## `src/db.rs` — the storage engine -/

/-- Embedding of `struct AddrDbEntry` (`src/db.rs:33`); `Default` gives
`label = None`. -/
structure AddrDbEntry where
  label : Option String
deriving Repr, DecidableEq

/-- Lookup in an LMDB sub-database modelled as an association list sorted
by key. -/
def assoc_get {α : Type} : List (Nat × α) → Nat → Option α
  | [], _ => none
  | (k, v) :: rest, key => if k = key then some v else assoc_get rest key

/-- LMDB `put`: insert or replace, keeping the entries sorted by key (an
LMDB B-tree iterates in key order; the log databases use `U32<BigEndian>`
keys, whose byte order coincides with numeric order). -/
def assoc_put {α : Type} : List (Nat × α) → Nat → α → List (Nat × α)
  | [], key, v => [(key, v)]
  | (k, w) :: rest, key, v =>
    if key < k then (key, v) :: (k, w) :: rest
    else if key = k then (key, v) :: rest
    else (k, w) :: assoc_put rest key v

/-- LMDB `delete`: remove the entry with the given key, if any. -/
def assoc_delete {α : Type} (l : List (Nat × α)) (key : Nat) : List (Nat × α) :=
  l.filter fun p => p.1 ≠ key

/-- Strictly ascending keys: the iteration-order invariant an LMDB
sub-database maintains (for the log databases the `U32<BigEndian>` byte
order coincides with numeric order, so `Database::range` iterates in
ascending timestamp order exactly when this holds of the model). -/
def keys_sorted {α : Type} : List (Nat × α) → Bool
  | [] => true
  | [_] => true
  | p :: q :: rest => decide (p.1 < q.1) && keys_sorted (q :: rest)

/-- One per-address log: `Timestamp` (`u32` seconds) to `RawSensorValues`,
in ascending key order. -/
abbrev LogContents : Type := List (Nat × RawSensorValues)

/-- The storage engine's state as far as the claims reach: the `"addr"`
registry sub-database (`addr_db`) keyed by the 48-bit address, and the
`sensor_log` map of open per-address log sub-databases (`src/db.rs:26`).
Presence of a key in `sensor_log` is what `LogTransaction::log` and
`Db::get_log` test; both are populated together only in `Db::open`. -/
structure DbState where
  addr_db : List (Nat × AddrDbEntry)
  sensor_log : List (Nat × LogContents)
deriving Repr, DecidableEq

/-- Embedding of `Db::get_addr` (`src/db.rs:143`). -/
def Db.get_addr (st : DbState) (addr : Nat) : Option AddrDbEntry :=
  assoc_get st.addr_db addr

/-- Embedding of `Db::put_addr` (`src/db.rs:151`). -/
def Db.put_addr (st : DbState) (addr : Nat) (data : AddrDbEntry) : DbState :=
  { st with addr_db := assoc_put st.addr_db addr data }

/-- Embedding of `Db::delete_addr` (`src/db.rs:172`): deletes from the
`addr_db` registry only, returning whether an entry was present. -/
def Db.delete_addr (st : DbState) (addr : Nat) : DbState × Bool :=
  ({ st with addr_db := assoc_delete st.addr_db addr },
    (assoc_get st.addr_db addr).isSome)

/-- Embedding of `Db::known_addrs` (`src/db.rs:162`): the registry's keys
in iteration (ascending) order. -/
def Db.known_addrs (st : DbState) : List Nat :=
  st.addr_db.map fun p => p.1

/-- Embedding of `LogTransaction::log` (`src/db.rs:68`): if the address has
an entry in `sensor_log`, `put` the sample under its timestamp key;
otherwise do nothing. Either way the function returns `Ok(())` — the heed
errors a real `put` could raise (I/O) are outside the pure model, but the
no-open-log path returns `Ok` without touching the backend at all, exactly
as in the source. -/
def LogTransaction.log (st : DbState) (addr timestamp : Nat) (values : SensorValues) :
    Except String DbState :=
  match assoc_get st.sensor_log addr with
  | some contents =>
    .ok { st with
      sensor_log :=
        assoc_put st.sensor_log addr
          (assoc_put contents timestamp (RawSensorValues.ofSensorValues values)) }
  | none => .ok st

/-- Embedding of `Db::get_log` (`src/db.rs:182`): `None` when the address
has no open log; otherwise the in-range (`start ≤ t < stop`) samples in
ascending key order, each decoded through
`SensorValues::try_from(RawSensorValues)`, skipping samples that fail
validation. -/
def Db.get_log (st : DbState) (addr start stop : Nat) :
    Option (List (Nat × SensorValues)) :=
  match assoc_get st.sensor_log addr with
  | none => none
  | some contents =>
    some <| contents.filterMap fun p =>
      if start ≤ p.1 ∧ p.1 < stop then
        match SensorValues.tryFromRaw p.2 with
        | .ok v => some (p.1, v)
        | .error _ => none
      else none

/-- Outcome of `Db::write_txn` (`src/db.rs:121`). `contention` is the
immediate `Error::MultipleWriteTransaction` return; `backendAcquire` is the
fall-through into `heed::Env::write_txn()`, which takes the LMDB write lock
(and blocks until it is free — it does not return this error). -/
inductive WriteTxnOutcome where
  | contention
  | backendAcquire
deriving Repr, DecidableEq

/-- The `RW_TXN_RUNNING` state (`src/db.rs:40`): one flag per thread, since
it is declared `thread_local!`. Threads are identified by `Nat`. -/
def TxnFlags : Type := Nat → Bool

/-- Embedding of `Db::write_txn` (`src/db.rs:121`) as seen from thread
`tid`: check (and set) the calling thread's own `RW_TXN_RUNNING` flag. -/
def Db.write_txn (tid : Nat) (flags : TxnFlags) : WriteTxnOutcome × TxnFlags :=
  if flags tid then (.contention, flags)
  else (.backendAcquire, fun t => if t = tid then true else flags t)

/-- Embedding of `impl Drop for RwTxn` (`src/db.rs:44`): clear the dropping
thread's flag. `RwTxn::commit` consumes the handle, so the drop (and hence
this reset) also runs after a commit. -/
def RwTxn.drop (tid : Nat) (flags : TxnFlags) : TxnFlags :=
  fun t => if t = tid then false else flags t

/-! ## `src/tasks.rs` / `src/main.rs` — the update coordinator -/

/-- Embedding of `enum SensorState` (`src/sensor.rs:93`). -/
inductive SensorState where
  | connected (values : SensorValues)
  | unconnected
deriving Repr, DecidableEq

/-- Embedding of the snapshot branch of `update` (`src/tasks.rs:54`,
duplicated as `update_task` in `src/main.rs:167`): collect the snapshot's
addresses that the registry does not know (`get_addr` returns `None`),
then, if any, `put_addr` a default entry for each inside one write
transaction, and finally `extend` the in-memory sensor map with the
snapshot. No other state is touched — in particular nothing is inserted
into `sensor_log`. -/
def update_snapshot_step (st : DbState) (sensors : List (Nat × SensorState))
    (update : List (Nat × SensorState)) : DbState × List (Nat × SensorState) :=
  let new_sensors := (update.map fun p => p.1).filter fun addr => (Db.get_addr st addr).isNone
  let st :=
    if new_sensors.isEmpty then st
    else new_sensors.foldl (fun s addr => Db.put_addr s addr { label := none }) st
  (st, update.foldl (fun m p => assoc_put m p.1 p.2) sensors)

/-! ## `src/bluetooth.rs` — the poll loop's per-object action -/

/-- Embedding of `enum BluezObject` (`src/bluetooth.rs:192`), without the
`WeatherstationCharacteristic` variant's payload detail (never produced by
`interpret_object`). The device address is the 48-bit numeric value. -/
inductive BluezObject where
  | interface (discovering : Bool)
  | weatherstationDevice (address : Nat) (connected : Bool) (services_resolved : Bool)
  | weatherstationCharacteristic
deriving Repr, DecidableEq

/-- An error returned by a zbus proxy call. `methodError` is a daemon-side
refusal of the specific method call (`zbus::Error::MethodError`); `other`
covers transport-level failures. -/
inductive ZbusCallError where
  | methodError (name msg : String)
  | other (msg : String)
deriving Repr, DecidableEq

/-- Embedding of the `match obj` in the poll loop of
`create_bluetooth_tasks` (`src/bluetooth.rs:117`), acting on one
interpreted object. `call_result` is the outcome of the (single) blocking
daemon call the arm makes, if any; each `?` in the source propagates an
`Err` out of the `async` block, resolving the poll-task future with that
error and so terminating the loop — modelled by returning `.error`.
Arm order follows the source: a not-connected device hits the `connect`
arm (setting the short 10-second retry wait) before the services-resolved
arm is considered. -/
def poll_object_step (connected_devices : List Nat) (wait : Nat) (obj : BluezObject)
    (call_result : Except ZbusCallError Unit) :
    Except ZbusCallError (List Nat × Nat) :=
  match obj with
  | .interface false => do
    let _ ← call_result   -- start_discovery()?
    .ok (connected_devices, wait)
  | .weatherstationDevice _ false _ => do
    let _ ← call_result   -- connect()?
    .ok (connected_devices, 10)
  | .weatherstationDevice address _ true =>
    if connected_devices.contains address then .ok (connected_devices, wait)
    else .ok (connected_devices ++ [address], wait)
  | _ => .ok (connected_devices, wait)

/-- One whole poll cycle body over the interpreted objects, threading the
connected-device set and the wait duration (initially 30 seconds), with an
oracle giving each daemon call's outcome. The first `Err` aborts the cycle
and the loop, as the source's `?` operators do. -/
def poll_cycle (connected_devices : List Nat)
    (objs : List (BluezObject × Except ZbusCallError Unit)) :
    Except ZbusCallError (List Nat × Nat) :=
  objs.foldlM (fun acc p => poll_object_step acc.1 acc.2 p.1 p.2) (connected_devices, 30)

/-! ## `src/bluetooth.rs` — `interpret_object` -/

/-- The two fixed service-UUID constants (`src/bluetooth.rs:33` and `:38`),
compared by their canonical string form (`ConstUuid.s`). -/
def BLE_GATT_SERVICE_ENVIRONMENTAL_SENSING : String :=
  "0000180f-0000-1000-8000-00805f9b34fb"

/-- The vendor weatherstation service UUID string (`src/bluetooth.rs:38`). -/
def BLE_GATT_SERVICE_WEATHERSTATION : String :=
  "e7364bd3-a1c5-4924-847d-3a9cd6e343ef"

/-- A `zvariant::OwnedValue` as far as `interpret_object` inspects it: the
typed downcasts it performs are to `bool`, `zvariant::Str` and
`zvariant::Array`; anything else only ever fails a downcast. -/
inductive DbusValue where
  | vBool (b : Bool)
  | vStr (s : String)
  | vArr (elems : List DbusValue)
  | vOther

/-- The `downcast_ref::<bool>()` of `interpret_object`. -/
def DbusValue.asBool : DbusValue → Option Bool
  | .vBool b => some b
  | _ => none

/-- The `downcast_ref::<zvariant::Str>()` of `interpret_object`. -/
def DbusValue.asStr : DbusValue → Option String
  | .vStr s => some s
  | _ => none

/-- The `downcast_ref::<Array>()` of `interpret_object`. -/
def DbusValue.asArr : DbusValue → Option (List DbusValue)
  | .vArr a => some a
  | _ => none

/-- A property bag: property name to value. An object's interface map is in
turn a bag of these keyed by interface name. -/
def PropBag : Type := List (String × DbusValue)

/-- `HashMap::get` on a string-keyed bag. -/
def sassoc_get {α : Type} : List (String × α) → String → Option α
  | [], _ => none
  | (k, v) :: rest, key => if k = key then some v else sassoc_get rest key

/-- Rust `str::split('/')` on a character list (same semantics as
`split_colon`). -/
def split_slash : List Char → List (List Char)
  | [] => [[]]
  | c :: rest =>
    if c = '/' then
      [] :: split_slash rest
    else
      match split_slash rest with
      | seg :: segs => (c :: seg) :: segs
      | [] => [[c]]

/-- The language of `PATH_RE`
(`^/org/bluez/(?P<intf>[^/]+)(/dev_(?P<device>[^/]+))?$`,
`src/bluetooth.rs:211`), written out structurally: the literal
`/org/bluez/` prefix, a nonempty slash-free `intf` capture, and optionally
a `/dev_` literal followed by a nonempty slash-free `device` capture.
Returns the captures on a match. -/
def bluez_path_match (path : List Char) : Option (List Char × Option (List Char)) :=
  match path with
  | '/' :: 'o' :: 'r' :: 'g' :: '/' :: 'b' :: 'l' :: 'u' :: 'e' :: 'z' :: '/' :: rest =>
    match split_slash rest with
    | [intf] => if intf = [] then none else some (intf, none)
    | [intf, dev] =>
      if intf = [] then none
      else
        match dev with
        | 'd' :: 'e' :: 'v' :: '_' :: devname =>
          if devname = [] then none else some (intf, some devname)
        | _ => none
    | _ => none
  | _ => none

/-- The UUID filter loop of `interpret_object` (`src/bluetooth.rs:236`):
fold over the advertised array, flagging exact (case-sensitive) string
equality with each of the two constants; non-string elements are skipped.
The `else if` order of the source is kept. -/
def uuid_scan (arr : List DbusValue) : Bool × Bool :=
  arr.foldl
    (fun p u =>
      match u with
      | .vStr s =>
        if s = BLE_GATT_SERVICE_ENVIRONMENTAL_SENSING then (true, p.2)
        else if s = BLE_GATT_SERVICE_WEATHERSTATION then (p.1, true)
        else p
      | _ => p)
    (false, false)

/-- The device branch of `interpret_object` (`src/bluetooth.rs:231`):
requires the `org.bluez.Device1` bag, its `UUIDs` array, both service-UUID
constants in it, then reads `Connected`, parses `Address` (a parse failure
is turned into `None` by `.ok()?`), and reads `ServicesResolved`. The
source also computes `dev.replace('_', ":")` from the path capture but
never uses it. -/
def interpret_device (interfaces : List (String × PropBag)) : Option BluezObject :=
  match sassoc_get interfaces "org.bluez.Device1" with
  | none => none
  | some bluez_device =>
    match sassoc_get bluez_device "UUIDs" with
    | none => none
    | some uuids_val =>
      match uuids_val.asArr with
      | none => none
      | some uuid_array =>
        if (uuid_scan uuid_array).1 ∧ (uuid_scan uuid_array).2 then
          match sassoc_get bluez_device "Connected" with
          | none => none
          | some connected_val =>
            match connected_val.asBool with
            | none => none
            | some connected =>
              match sassoc_get bluez_device "Address" with
              | none => none
              | some address_val =>
                match address_val.asStr with
                | none => none
                | some address_str =>
                  match bluetooth_address_from_str address_str.toList with
                  | none => none
                  | some address =>
                    match sassoc_get bluez_device "ServicesResolved" with
                    | none => none
                    | some resolved_val =>
                      match resolved_val.asBool with
                      | none => none
                      | some services_resolved =>
                        some (.weatherstationDevice address connected services_resolved)
        else none

/-- The adapter branch of `interpret_object` (`src/bluetooth.rs:263`):
requires the `org.bluez.Adapter1` bag and its boolean `Discovering`. -/
def interpret_adapter (interfaces : List (String × PropBag)) : Option BluezObject :=
  match sassoc_get interfaces "org.bluez.Adapter1" with
  | none => none
  | some bluez_adapter =>
    match sassoc_get bluez_adapter "Discovering" with
    | none => none
    | some discovering_val =>
      match discovering_val.asBool with
      | none => none
      | some discovering => some (.interface discovering)

/-- Embedding of `interpret_object` (`src/bluetooth.rs:206`). The function
body opens with a `match` over `strip_prefix(...).split('/')` whose arms
are ill-typed leftovers (that fragment does not type-check as written and
computes nothing); the behavior is the regex-driven tail from line 228:
match `PATH_RE`, then dispatch on whether the `device` capture is present. -/
def interpret_object (path : List Char) (interfaces : List (String × PropBag)) :
    Option BluezObject :=
  match bluez_path_match path with
  | none => none
  | some caps =>
    match caps.2 with
    | some _ => interpret_device interfaces
    | none => interpret_adapter interfaces

/-! ## Association-list lemmas shared by several claims -/

theorem assoc_get_delete_self {α : Type} (l : List (Nat × α)) (key : Nat) :
    assoc_get (assoc_delete l key) key = none := by
  induction l with
  | nil => rfl
  | cons p rest ih =>
    by_cases h : p.1 = key
    · simpa [assoc_delete, List.filter, h] using ih
    · simpa [assoc_delete, List.filter, h, assoc_get] using ih

theorem assoc_get_delete_ne {α : Type} (l : List (Nat × α)) (key a : Nat) (h : a ≠ key) :
    assoc_get (assoc_delete l key) a = assoc_get l a := by
  induction l with
  | nil => rfl
  | cons p rest ih =>
    by_cases hp : p.1 = key
    · have hpa : p.1 ≠ a := by omega
      have hka : key ≠ a := fun e => h e.symm
      simpa [assoc_delete, List.filter_cons, hp, assoc_get, hpa, hka] using ih
    · by_cases ha : p.1 = a
      · simp [assoc_delete, List.filter_cons, hp, assoc_get, ha, h]
      · simpa [assoc_delete, List.filter_cons, hp, assoc_get, ha, h] using ih

theorem assoc_get_put_self {α : Type} (l : List (Nat × α)) (key : Nat) (v : α) :
    assoc_get (assoc_put l key v) key = some v := by
  induction l with
  | nil => simp [assoc_put, assoc_get]
  | cons p rest ih =>
    by_cases h1 : key < p.1
    · simp [assoc_put, assoc_get, h1]
    · by_cases h2 : key = p.1
      · simp [assoc_put, assoc_get, h1, h2]
      · have : p.1 ≠ key := by omega
        simp [assoc_put, assoc_get, h1, h2, this, ih]

theorem assoc_get_put_ne {α : Type} (l : List (Nat × α)) (key k : Nat) (v : α)
    (h : k ≠ key) : assoc_get (assoc_put l key v) k = assoc_get l k := by
  have hk : key ≠ k := fun e => h e.symm
  induction l with
  | nil => simp [assoc_put, assoc_get, hk]
  | cons p rest ih =>
    by_cases h1 : key < p.1
    · simp [assoc_put, assoc_get, h1, hk]
    · by_cases h2 : key = p.1
      · have hpk : p.1 ≠ k := by omega
        simp [assoc_put, assoc_get, h1, h2, hk, hpk]
      · by_cases hp : p.1 = k
        · have h1k : ¬key < k := by omega
          have h2k : ¬key = k := by omega
          simp [assoc_put, assoc_get, h1k, h2k, hp]
        · simp [assoc_put, assoc_get, h1, h2, hp, ih]

theorem keys_sorted_put {α : Type} (l : List (Nat × α)) (k : Nat) (v : α)
    (h : keys_sorted l = true) : keys_sorted (assoc_put l k v) = true := by
  induction l with
  | nil => rfl
  | cons p rest ih =>
    by_cases h1 : k < p.1
    · simp only [assoc_put, if_pos h1]
      simp [keys_sorted, h1, h]
    · by_cases h2 : k = p.1
      · simp only [assoc_put, if_neg h1, if_pos h2]
        cases rest with
        | nil => rfl
        | cons q rest2 =>
          simp only [keys_sorted, Bool.and_eq_true, decide_eq_true_eq] at h ⊢
          exact ⟨by omega, h.2⟩
      · simp only [assoc_put, if_neg h1, if_neg h2]
        cases rest with
        | nil =>
          simp only [assoc_put, keys_sorted, Bool.and_eq_true, decide_eq_true_eq]
          exact ⟨by omega, trivial⟩
        | cons q rest2 =>
          simp only [keys_sorted, Bool.and_eq_true, decide_eq_true_eq] at h
          have ih2 := ih h.2
          by_cases h3 : k < q.1
          · simp only [assoc_put, if_pos h3] at ih2 ⊢
            simp only [keys_sorted, Bool.and_eq_true, decide_eq_true_eq] at ih2 ⊢
            exact ⟨by omega, ih2.1, ih2.2⟩
          · by_cases h4 : k = q.1
            · simp only [assoc_put, if_neg h3, if_pos h4] at ih2 ⊢
              cases rest2 with
              | nil =>
                simp only [keys_sorted, Bool.and_eq_true, decide_eq_true_eq]
                exact ⟨by omega, trivial⟩
              | cons w rest3 =>
                simp only [keys_sorted, Bool.and_eq_true, decide_eq_true_eq] at ih2 ⊢
                exact ⟨by omega, ih2⟩
            · simp only [assoc_put, if_neg h3, if_neg h4] at ih2 ⊢
              simp only [keys_sorted, Bool.and_eq_true, decide_eq_true_eq] at ih2 ⊢
              exact ⟨h.1, ih2⟩

theorem celsius_try_from_ok (x : Int) (h : -27315 ≤ x) : celsius_try_from x = .ok x := by
  unfold celsius_try_from
  rw [if_neg (by omega)]

theorem relative_humidity_try_from_ok (x : Nat) (h : x ≤ 10000) :
    relative_humidity_try_from x = .ok x := by
  unfold relative_humidity_try_from
  rw [if_neg (by omega)]

theorem tryFromRaw_ofSensorValues (v : SensorValues) (hv : v.Valid) :
    SensorValues.tryFromRaw (RawSensorValues.ofSensorValues v) = .ok v := by
  obtain ⟨h1, -, -, h4⟩ := hv
  unfold SensorValues.tryFromRaw RawSensorValues.ofSensorValues
  rw [celsius_try_from_ok _ h1, relative_humidity_try_from_ok _ h4]
  rfl

/-! ## Claim C8 — sensor bounds and fixed-point display -/

/-- C8: the constructor-bound parts of the claim hold as stated
(`RelativeHumidity` from 10001 fails, from 10000 succeeds and displays
`"100.00%"`; `Celsius` below −27315 fails; `Pascal` 1000 displays
`"100.0Pa"`), but the display of a *negative* `Celsius` value does not
reproduce the fixed-point scale: `-5` (−0.05 °C) is a valid value and
displays as `"0.-5°C"`, because `{}.{:0>2}` formats a signed remainder.
This theorem evaluates the embedded code at the failing input. -/
theorem celsius_display_negative_failing_input :
    (relative_humidity_try_from 10001).isOk = false ∧
    relative_humidity_try_from 10000 = .ok 10000 ∧
    display_relative_humidity 10000 = "100.00%" ∧
    (celsius_try_from (-27316)).isOk = false ∧
    display_pascal 1000 = "100.0Pa" ∧
    celsius_try_from (-5) = .ok (-5) ∧
    display_celsius (-5) = "0.-5°C" ∧
    display_celsius (-5) ≠ "-0.05°C" := by
  refine ⟨rfl, rfl, rfl, rfl, rfl, rfl, rfl, ?_⟩
  decide

/-! ## Claim C10 — logging to an address with no open log -/

/-- C10: `LogTransaction::log` for an address absent from the `sensor_log`
map returns `Ok` and leaves the store untouched — the sample is silently
discarded, indistinguishable (by return value) from a persisted append. -/
theorem log_without_open_log_silently_discards (st : DbState) (addr t : Nat)
    (v : SensorValues) (h : assoc_get st.sensor_log addr = none) :
    LogTransaction.log st addr t v = .ok st := by
  unfold LogTransaction.log
  rw [h]

/-- Witness for C10 at a concrete state and sample. -/
theorem log_without_open_log_silently_discards_witness :
    assoc_get (DbState.mk [] []).sensor_log 5 = none ∧
    LogTransaction.log (DbState.mk [] []) 5 100
        (SensorValues.mk 2000 101325 5000) = .ok (DbState.mk [] []) :=
  ⟨rfl, log_without_open_log_silently_discards (DbState.mk [] []) 5 100
    (SensorValues.mk 2000 101325 5000) rfl⟩

/-! ## Claim C9 — deleting a registry entry is frame-preserving -/

/-- C9: `Db::delete_addr` removes only the registry entry: afterwards
`get_addr` on the deleted address is `None`, every `get_log` query (on any
address and range) is unchanged, and every other registry entry is
unchanged. -/
theorem delete_addr_only_removes_registry_entry (st : DbState) (addr : Nat) :
    Db.get_addr (Db.delete_addr st addr).1 addr = none ∧
    (∀ a start stop,
      Db.get_log (Db.delete_addr st addr).1 a start stop = Db.get_log st a start stop) ∧
    (∀ a, a ≠ addr → Db.get_addr (Db.delete_addr st addr).1 a = Db.get_addr st a) := by
  refine ⟨?_, ?_, ?_⟩
  · exact assoc_get_delete_self st.addr_db addr
  · intro a start stop
    rfl
  · intro a ha
    exact assoc_get_delete_ne st.addr_db addr a ha

/-- Witness for C9: a store with one registered address and one logged
sample; after the delete, `get_addr` is `None` while `get_log` still
returns the sample. -/
theorem delete_addr_only_removes_registry_entry_witness :
    Db.get_addr
        (Db.delete_addr
          (DbState.mk [(5, AddrDbEntry.mk none)]
            [(5, [(100, RawSensorValues.mk 2000 5000 101325)])]) 5).1 5 = none ∧
    Db.get_log
        (Db.delete_addr
          (DbState.mk [(5, AddrDbEntry.mk none)]
            [(5, [(100, RawSensorValues.mk 2000 5000 101325)])]) 5).1 5 0 1000 =
      Db.get_log
        (DbState.mk [(5, AddrDbEntry.mk none)]
          [(5, [(100, RawSensorValues.mk 2000 5000 101325)])]) 5 0 1000 ∧
    Db.get_addr
        (Db.delete_addr
          (DbState.mk [(5, AddrDbEntry.mk none)]
            [(5, [(100, RawSensorValues.mk 2000 5000 101325)])]) 5).1 6 =
      Db.get_addr
        (DbState.mk [(5, AddrDbEntry.mk none)]
          [(5, [(100, RawSensorValues.mk 2000 5000 101325)])]) 6 := by
  have h := delete_addr_only_removes_registry_entry
    (DbState.mk [(5, AddrDbEntry.mk none)]
      [(5, [(100, RawSensorValues.mk 2000 5000 101325)])]) 5
  exact ⟨h.1, h.2.1 5 0 1000, h.2.2 6 (by decide)⟩

/-! ## Claim C1 — the single-writer guard -/

/-- C1 counterexample: the claim says a second concurrent `write_txn`
attempt *from any thread* fails immediately with the contention error.
But `RW_TXN_RUNNING` is `thread_local!`: with thread 0 holding an open
write transaction, thread 1's attempt passes the flag check and proceeds
into the backend acquisition instead of returning
`Error::MultipleWriteTransaction`. -/
theorem write_txn_guard_not_process_wide :
    (Db.write_txn 1 (Db.write_txn 0 (fun _ => false)).2).1 = .backendAcquire ∧
    WriteTxnOutcome.backendAcquire ≠ WriteTxnOutcome.contention := by
  refine ⟨rfl, ?_⟩
  decide

/-- C1 amended: the guard is per-thread. While a thread holds an open
write transaction, a second attempt *from the same thread* fails
immediately with the contention error, and dropping (or committing, which
drops) the transaction lets that thread open a subsequent one. -/
theorem write_txn_single_writer_per_thread (tid : Nat) (flags : TxnFlags)
    (h : flags tid = false) :
    (Db.write_txn tid flags).1 = .backendAcquire ∧
    (Db.write_txn tid (Db.write_txn tid flags).2).1 = .contention ∧
    (Db.write_txn tid (RwTxn.drop tid (Db.write_txn tid flags).2)).1 = .backendAcquire := by
  simp [Db.write_txn, RwTxn.drop, h]

/-- Witness for the amended C1 on thread 0 with no transaction open. -/
theorem write_txn_single_writer_per_thread_witness :
    ((fun _ : Nat => false) 0 = false) ∧
    ((Db.write_txn 0 (fun _ => false)).1 = .backendAcquire ∧
      (Db.write_txn 0 (Db.write_txn 0 (fun _ => false)).2).1 = .contention ∧
      (Db.write_txn 0 (RwTxn.drop 0 (Db.write_txn 0 (fun _ => false)).2)).1 =
        .backendAcquire) :=
  ⟨rfl, write_txn_single_writer_per_thread 0 (fun _ => false) rfl⟩

/-! ## Claim C5 — connect errors in the poll loop -/

/-- C5 counterexample: the claim says a method-level refusal of the
`connect` call is logged and retried on the next cycle without terminating
the poll loop. In the source the `connect` arm is
`block_in_place(|| ...connect())?`: *every* error, a `MethodError` refusal
included, is propagated by `?` and resolves the poll-task future with
`Err`, ending the loop — the cycle below aborts with the refusal instead
of completing. -/
theorem connect_refusal_terminates_poll_loop :
    poll_cycle []
        [(.weatherstationDevice 5 false false,
          .error (.methodError "org.bluez.Error.Failed" "refused"))] =
      .error (.methodError "org.bluez.Error.Failed" "refused") ∧
    (poll_cycle []
        [(.weatherstationDevice 5 false false,
          .error (.methodError "org.bluez.Error.Failed" "refused"))]).isOk = false := by
  exact ⟨rfl, rfl⟩

/-- C5 amended: in the connect branch *every* error of the connect call —
a method-level refusal exactly like any other error — is fatal and aborts
the cycle (and with it the poll loop), while a successful connect
continues the cycle with the shortened 10-second wait. -/
theorem connect_errors_all_fatal (devs rest_devs : List Nat) (wait : Nat) (addr : Nat)
    (resolved : Bool) (e : ZbusCallError)
    (rest : List (BluezObject × Except ZbusCallError Unit)) :
    poll_object_step devs wait (.weatherstationDevice addr false resolved) (.error e) =
      .error e ∧
    poll_object_step devs wait (.weatherstationDevice addr false resolved) (.ok ()) =
      .ok (devs, 10) ∧
    poll_cycle rest_devs
        ((BluezObject.weatherstationDevice addr false resolved, .error e) :: rest) =
      .error e := by
  refine ⟨?_, ?_, ?_⟩ <;> cases resolved <;> rfl

/-! ## Claim C2 — log-append key discipline -/

theorem celsius_try_from_err (x : Int) (h : x < -27315) :
    celsius_try_from x = .error "Received temperature lower than absolute zero" := by
  unfold celsius_try_from
  rw [if_pos h]

theorem relative_humidity_try_from_err (x : Nat) (h : 10000 < x) :
    relative_humidity_try_from x = .error "Invalid relative humidity, cannot be higher than 100%" := by
  unfold relative_humidity_try_from
  rw [if_pos h]

/-- C2 counterexample: the claim says appending a sample whose timestamp
equals (or is below) the log's current maximum key fails with a backend
error. `LogTransaction::log` calls plain `Database::put` (no append mode):
logging timestamp 100 twice to an open log returns `Ok` both times and the
second sample *overwrites* the first, as the subsequent `get_log` shows. -/
theorem log_equal_timestamp_overwrites :
    LogTransaction.log (DbState.mk [] [(7, [])]) 7 100 (SensorValues.mk 2000 101325 5000) =
      .ok (DbState.mk [] [(7, [(100, RawSensorValues.mk 2000 5000 101325)])]) ∧
    LogTransaction.log
        (DbState.mk [] [(7, [(100, RawSensorValues.mk 2000 5000 101325)])]) 7 100
        (SensorValues.mk 2100 101325 5000) =
      .ok (DbState.mk [] [(7, [(100, RawSensorValues.mk 2100 5000 101325)])]) ∧
    Db.get_log (DbState.mk [] [(7, [(100, RawSensorValues.mk 2100 5000 101325)])]) 7 100 101 =
      some [(100, SensorValues.mk 2100 101325 5000)] :=
  ⟨rfl, rfl, rfl⟩

/-- C2 amended: appends through `LogTransaction::log` succeed for *any*
timestamp and *any* current log contents (LMDB `put`, not an append-mode
insert): an equal key overwrites exactly that sample, leaving every other
timestamp's sample unchanged; any key — one at or below the current
maximum included — is stored at its key-ordered position, so the log stays
sorted by timestamp; and appending two samples with timestamps `t1 < t2`
to an empty log, in either order (ascending, or the smaller timestamp
second), succeeds with a subsequent `get_log` over `[t1, t2+1)` returning
both in ascending timestamp order. -/
theorem log_put_semantics (st : DbState) (addr : Nat) (contents : LogContents)
    (t1 t2 : Nat) (v1 v1b v2 : SensorValues)
    (hopen : assoc_get st.sensor_log addr = some contents) (hlt : t1 < t2)
    (hv1 : v1.Valid) (hv2 : v2.Valid) :
    LogTransaction.log st addr t1 v1 =
      .ok { st with sensor_log := (assoc_put st.sensor_log addr
              (assoc_put contents t1 (RawSensorValues.ofSensorValues v1))) } ∧
    assoc_get (assoc_put contents t1 (RawSensorValues.ofSensorValues v1)) t1 =
      some (RawSensorValues.ofSensorValues v1) ∧
    (∀ t, t ≠ t1 →
      assoc_get (assoc_put contents t1 (RawSensorValues.ofSensorValues v1)) t =
        assoc_get contents t) ∧
    (keys_sorted contents = true →
      keys_sorted (assoc_put contents t1 (RawSensorValues.ofSensorValues v1)) = true) ∧
    LogTransaction.log { st with sensor_log := (assoc_put st.sensor_log addr []) }
        addr t1 v1 =
      .ok { st with sensor_log := (assoc_put (assoc_put st.sensor_log addr []) addr
              [(t1, RawSensorValues.ofSensorValues v1)]) } ∧
    LogTransaction.log
        { st with sensor_log := (assoc_put (assoc_put st.sensor_log addr []) addr
            [(t1, RawSensorValues.ofSensorValues v1)]) } addr t2 v2 =
      .ok { st with sensor_log :=
              (assoc_put (assoc_put (assoc_put st.sensor_log addr []) addr
                  [(t1, RawSensorValues.ofSensorValues v1)]) addr
                [(t1, RawSensorValues.ofSensorValues v1),
                  (t2, RawSensorValues.ofSensorValues v2)]) } ∧
    Db.get_log
        { st with sensor_log :=
            (assoc_put (assoc_put (assoc_put st.sensor_log addr []) addr
                [(t1, RawSensorValues.ofSensorValues v1)]) addr
              [(t1, RawSensorValues.ofSensorValues v1),
                (t2, RawSensorValues.ofSensorValues v2)]) } addr t1 (t2 + 1) =
      some [(t1, v1), (t2, v2)] ∧
    LogTransaction.log
        { st with sensor_log := (assoc_put (assoc_put st.sensor_log addr []) addr
            [(t1, RawSensorValues.ofSensorValues v1)]) } addr t1 v1b =
      .ok { st with sensor_log :=
              (assoc_put (assoc_put (assoc_put st.sensor_log addr []) addr
                  [(t1, RawSensorValues.ofSensorValues v1)]) addr
                [(t1, RawSensorValues.ofSensorValues v1b)]) } ∧
    LogTransaction.log { st with sensor_log := (assoc_put st.sensor_log addr []) }
        addr t2 v2 =
      .ok { st with sensor_log := (assoc_put (assoc_put st.sensor_log addr []) addr
              [(t2, RawSensorValues.ofSensorValues v2)]) } ∧
    LogTransaction.log
        { st with sensor_log := (assoc_put (assoc_put st.sensor_log addr []) addr
            [(t2, RawSensorValues.ofSensorValues v2)]) } addr t1 v1 =
      .ok { st with sensor_log :=
              (assoc_put (assoc_put (assoc_put st.sensor_log addr []) addr
                  [(t2, RawSensorValues.ofSensorValues v2)]) addr
                [(t1, RawSensorValues.ofSensorValues v1),
                  (t2, RawSensorValues.ofSensorValues v2)]) } ∧
    Db.get_log
        { st with sensor_log :=
            (assoc_put (assoc_put (assoc_put st.sensor_log addr []) addr
                [(t2, RawSensorValues.ofSensorValues v2)]) addr
              [(t1, RawSensorValues.ofSensorValues v1),
                (t2, RawSensorValues.ofSensorValues v2)]) } addr t1 (t2 + 1) =
      some [(t1, v1), (t2, v2)] := by
  have hup : assoc_put [(t1, RawSensorValues.ofSensorValues v1)] t2
      (RawSensorValues.ofSensorValues v2) =
      [(t1, RawSensorValues.ofSensorValues v1), (t2, RawSensorValues.ofSensorValues v2)] := by
    unfold assoc_put
    rw [if_neg (by omega), if_neg (by omega)]
    rfl
  have hover : assoc_put [(t1, RawSensorValues.ofSensorValues v1)] t1
      (RawSensorValues.ofSensorValues v1b) = [(t1, RawSensorValues.ofSensorValues v1b)] := by
    unfold assoc_put
    rw [if_neg (by omega), if_pos rfl]
  have hdown : assoc_put [(t2, RawSensorValues.ofSensorValues v2)] t1
      (RawSensorValues.ofSensorValues v1) =
      [(t1, RawSensorValues.ofSensorValues v1), (t2, RawSensorValues.ofSensorValues v2)] := by
    unfold assoc_put
    rw [if_pos hlt]
  refine ⟨?_, ?_, ?_, ?_, ?_, ?_, ?_, ?_, ?_, ?_, ?_⟩
  · simp [LogTransaction.log, hopen]
  · exact assoc_get_put_self contents t1 (RawSensorValues.ofSensorValues v1)
  · intro t ht
    exact assoc_get_put_ne contents t1 t (RawSensorValues.ofSensorValues v1) ht
  · intro hs
    exact keys_sorted_put contents t1 (RawSensorValues.ofSensorValues v1) hs
  · simp [LogTransaction.log, assoc_get_put_self, assoc_put]
  · simp [LogTransaction.log, assoc_get_put_self, hup]
  · unfold Db.get_log
    rw [assoc_get_put_self]
    simp only [List.filterMap]
    rw [if_pos (by omega : t1 ≤ t1 ∧ t1 < t2 + 1),
      if_pos (by omega : t1 ≤ t2 ∧ t2 < t2 + 1),
      tryFromRaw_ofSensorValues v1 hv1, tryFromRaw_ofSensorValues v2 hv2]
  · simp [LogTransaction.log, assoc_get_put_self, hover]
  · simp [LogTransaction.log, assoc_get_put_self, assoc_put]
  · simp [LogTransaction.log, assoc_get_put_self, hdown]
  · unfold Db.get_log
    rw [assoc_get_put_self]
    simp only [List.filterMap]
    rw [if_pos (by omega : t1 ≤ t1 ∧ t1 < t2 + 1),
      if_pos (by omega : t1 ≤ t2 ∧ t2 < t2 + 1),
      tryFromRaw_ofSensorValues v1 hv1, tryFromRaw_ofSensorValues v2 hv2]

/-- Witness for the amended C2: a store whose open log for address 7
already holds a sample at timestamp 50, timestamps 100 and 200, concrete
valid samples — exercising the overwrite-and-frame facts, the key-order
preservation, and both `get_log` scenarios. -/
theorem log_put_semantics_witness :
    (assoc_get (DbState.mk [] [(7, [(50, RawSensorValues.mk 1500 4000 100000)])]).sensor_log 7 =
        some [(50, RawSensorValues.mk 1500 4000 100000)] ∧ 100 < 200 ∧
      (SensorValues.mk 2000 101325 5000).Valid ∧ (SensorValues.mk 2100 101325 5001).Valid) ∧
    assoc_get
        (assoc_put [(50, RawSensorValues.mk 1500 4000 100000)] 100
          (RawSensorValues.ofSensorValues (SensorValues.mk 2000 101325 5000))) 100 =
      some (RawSensorValues.ofSensorValues (SensorValues.mk 2000 101325 5000)) ∧
    assoc_get
        (assoc_put [(50, RawSensorValues.mk 1500 4000 100000)] 100
          (RawSensorValues.ofSensorValues (SensorValues.mk 2000 101325 5000))) 50 =
      assoc_get [(50, RawSensorValues.mk 1500 4000 100000)] 50 ∧
    keys_sorted
        (assoc_put [(50, RawSensorValues.mk 1500 4000 100000)] 100
          (RawSensorValues.ofSensorValues (SensorValues.mk 2000 101325 5000))) = true ∧
    Db.get_log
        { DbState.mk [] [(7, [(50, RawSensorValues.mk 1500 4000 100000)])] with
            sensor_log :=
              (assoc_put
                (assoc_put
                  (assoc_put
                    (DbState.mk []
                      [(7, [(50, RawSensorValues.mk 1500 4000 100000)])]).sensor_log 7 [])
                  7 [(100, RawSensorValues.ofSensorValues (SensorValues.mk 2000 101325 5000))])
                7 [(100, RawSensorValues.ofSensorValues (SensorValues.mk 2000 101325 5000)),
                    (200, RawSensorValues.ofSensorValues (SensorValues.mk 2100 101325 5001))]) }
        7 100 201 =
      some [(100, SensorValues.mk 2000 101325 5000), (200, SensorValues.mk 2100 101325 5001)] ∧
    Db.get_log
        { DbState.mk [] [(7, [(50, RawSensorValues.mk 1500 4000 100000)])] with
            sensor_log :=
              (assoc_put
                (assoc_put
                  (assoc_put
                    (DbState.mk []
                      [(7, [(50, RawSensorValues.mk 1500 4000 100000)])]).sensor_log 7 [])
                  7 [(200, RawSensorValues.ofSensorValues (SensorValues.mk 2100 101325 5001))])
                7 [(100, RawSensorValues.ofSensorValues (SensorValues.mk 2000 101325 5000)),
                    (200, RawSensorValues.ofSensorValues (SensorValues.mk 2100 101325 5001))]) }
        7 100 201 =
      some [(100, SensorValues.mk 2000 101325 5000), (200, SensorValues.mk 2100 101325 5001)] := by
  have h := log_put_semantics
    (DbState.mk [] [(7, [(50, RawSensorValues.mk 1500 4000 100000)])]) 7
    [(50, RawSensorValues.mk 1500 4000 100000)] 100 200
    (SensorValues.mk 2000 101325 5000) (SensorValues.mk 2050 101325 5000)
    (SensorValues.mk 2100 101325 5001) rfl (by decide) (by decide) (by decide)
  exact ⟨⟨rfl, by decide, by decide, by decide⟩, h.2.1, h.2.2.1 50 (by decide),
    h.2.2.2.1 (by decide), h.2.2.2.2.2.2.1, h.2.2.2.2.2.2.2.2.2.2⟩

/-! ## Claim C3 — registering a new address never creates its log -/

/-- C3: the claim says the coordinator both registers a newly observed
address and creates its log. The snapshot branch of `update` only calls
`put_addr`; nothing is ever inserted into the `sensor_log` map after
`Db::open`. Evaluating the embedded coordinator step on a fresh store and
a snapshot containing the unknown address 5: the registry entry appears,
but `sensor_log` has no entry for 5, so a subsequent `log(5, 100, v)`
returns `Ok` while appending nothing, and `get_log` still answers
"address unknown". -/
theorem new_address_registered_but_log_not_created :
    update_snapshot_step (DbState.mk [] []) [] [(5, SensorState.unconnected)] =
      (DbState.mk [(5, AddrDbEntry.mk none)] [], [(5, SensorState.unconnected)]) ∧
    Db.get_addr (DbState.mk [(5, AddrDbEntry.mk none)] []) 5 = some (AddrDbEntry.mk none) ∧
    assoc_get (DbState.mk [(5, AddrDbEntry.mk none)] []).sensor_log 5 = none ∧
    LogTransaction.log (DbState.mk [(5, AddrDbEntry.mk none)] []) 5 100
        (SensorValues.mk 2000 101325 5000) = .ok (DbState.mk [(5, AddrDbEntry.mk none)] []) ∧
    Db.get_log (DbState.mk [(5, AddrDbEntry.mk none)] []) 5 0 4294967295 = none :=
  ⟨rfl, rfl, rfl, rfl, rfl⟩

/-! ## Claim C4 — characteristic byte order -/

/-- C4 counterexample: the claim says the codec decodes *little-endian*
integers. `Weatherstation::read_values` uses `byteorder::BigEndian`: on
the temperature bytes `[1, 2]` the code decodes 258 (big-endian), while
the little-endian decoder the spec describes yields 513. -/
theorem read_values_endianness_counterexample :
    read_values [1, 2] [0, 0, 0, 0] [0, 0] = .ok (SensorValues.mk 258 0 0) ∧
    read_values_little_endian_spec [1, 2] [0, 0, 0, 0] [0, 0] =
      .ok (SensorValues.mk 513 0 0) ∧
    read_values [1, 2] [0, 0, 0, 0] [0, 0] ≠
      read_values_little_endian_spec [1, 2] [0, 0, 0, 0] [0, 0] := by
  refine ⟨rfl, rfl, ?_⟩
  intro h
  have h2 : (Except.ok (SensorValues.mk 258 0 0) : Except String SensorValues) =
      .ok (SensorValues.mk 513 0 0) := h
  rw [Except.ok.injEq] at h2
  exact absurd h2 (by decide)

/-- C4 amended: the codec decodes fixed-width *big-endian* integers —
signed 16-bit temperature, unsigned 32-bit pressure, unsigned 16-bit
humidity — and an out-of-range decoded value is a domain error (never a
clamped `Ok`). -/
theorem read_values_decodes_big_endian (tb pb hb : List Nat)
    (htb : 2 ≤ tb.length) (hpb : 4 ≤ pb.length) (hhb : 2 ≤ hb.length)
    (hbytes : (∀ x ∈ tb, x < 256) ∧ (∀ x ∈ pb, x < 256) ∧ (∀ x ∈ hb, x < 256)) :
    (∀ v, read_values tb pb hb = .ok v ↔
      (-27315 ≤ read_i16_be tb ∧ read_u16_be hb ≤ 10000 ∧
        v = SensorValues.mk (read_i16_be tb) (read_u32_be pb) (read_u16_be hb))) ∧
    ((read_i16_be tb < -27315 ∨ 10000 < read_u16_be hb) →
      ∀ v, read_values tb pb hb ≠ .ok v) := by
  by_cases h1 : read_i16_be tb < -27315
  · have herr : read_values tb pb hb =
        .error "Received temperature lower than absolute zero" := by
      show (do
        let t ← celsius_try_from (read_i16_be tb)
        let h ← relative_humidity_try_from (read_u16_be hb)
        Except.ok (SensorValues.mk t (pascal_from (read_u32_be pb)) h)) =
          Except.error "Received temperature lower than absolute zero"
      rw [celsius_try_from_err (read_i16_be tb) h1]
      rfl
    constructor
    · intro v
      rw [herr]
      constructor
      · intro hc
        exact absurd hc (by simp)
      · intro hc
        exact absurd hc.1 (by omega)
    · intro _ v
      rw [herr]
      simp
  · by_cases h2 : 10000 < read_u16_be hb
    · have herr : read_values tb pb hb =
          .error "Invalid relative humidity, cannot be higher than 100%" := by
        show (do
          let t ← celsius_try_from (read_i16_be tb)
          let h ← relative_humidity_try_from (read_u16_be hb)
          Except.ok (SensorValues.mk t (pascal_from (read_u32_be pb)) h)) =
            Except.error "Invalid relative humidity, cannot be higher than 100%"
        rw [celsius_try_from_ok (read_i16_be tb) (by omega),
          relative_humidity_try_from_err (read_u16_be hb) h2]
        rfl
      constructor
      · intro v
        rw [herr]
        constructor
        · intro hc
          exact absurd hc (by simp)
        · intro hc
          exact absurd hc.2.1 (by omega)
      · intro _ v
        rw [herr]
        simp
    · have hok : read_values tb pb hb =
          .ok (SensorValues.mk (read_i16_be tb) (read_u32_be pb) (read_u16_be hb)) := by
        show (do
          let t ← celsius_try_from (read_i16_be tb)
          let h ← relative_humidity_try_from (read_u16_be hb)
          Except.ok (SensorValues.mk t (pascal_from (read_u32_be pb)) h)) =
            Except.ok (SensorValues.mk (read_i16_be tb) (read_u32_be pb) (read_u16_be hb))
        rw [celsius_try_from_ok (read_i16_be tb) (by omega),
          relative_humidity_try_from_ok (read_u16_be hb) (by omega)]
        rfl
      constructor
      · intro v
        rw [hok]
        constructor
        · intro hc
          cases hc
          exact ⟨by omega, by omega, rfl⟩
        · intro hc
          rw [hc.2.2]
      · intro hcontra _ _
        omega

/-- Witness for the amended C4: temperature bytes `[7, 208]` decode
big-endian to 2000 (20.00 °C), pressure `[0, 0, 3, 232]` to 1000,
humidity `[19, 136]` to 5000. -/
theorem read_values_decodes_big_endian_witness :
    (2 ≤ ([7, 208] : List Nat).length ∧ 4 ≤ ([0, 0, 3, 232] : List Nat).length ∧
      2 ≤ ([19, 136] : List Nat).length) ∧
    (read_values [7, 208] [0, 0, 3, 232] [19, 136] = .ok (SensorValues.mk 2000 1000 5000) ↔
      (-27315 ≤ read_i16_be [7, 208] ∧ read_u16_be [19, 136] ≤ 10000 ∧
        SensorValues.mk 2000 1000 5000 =
          SensorValues.mk (read_i16_be [7, 208]) (read_u32_be [0, 0, 3, 232])
            (read_u16_be [19, 136]))) :=
  ⟨⟨by decide, by decide, by decide⟩,
    (read_values_decodes_big_endian [7, 208] [0, 0, 3, 232] [19, 136]
      (by decide) (by decide) (by decide)
      ⟨by decide, by decide, by decide⟩).1 (SensorValues.mk 2000 1000 5000)⟩

/-! ## Claim C7 — address codec round-trip and failure shapes -/

set_option maxRecDepth 1000000 in
theorem u8_from_str_radix_16_hex2 (n : Nat) (h : n < 256) :
    u8_from_str_radix_16 (hex2_upper n) = some n := by
  revert h
  revert n
  decide

set_option maxRecDepth 1000000 in
theorem hex2_upper_no_colon (n : Nat) (h : n < 256) : ∀ c ∈ hex2_upper n, c ≠ ':' := by
  revert h
  revert n
  decide

theorem hex2_upper_length (n : Nat) : (hex2_upper n).length = 2 := rfl

theorem split_colon_no_sep (xs : List Char) (h : ∀ c ∈ xs, c ≠ ':') :
    split_colon xs = [xs] := by
  induction xs with
  | nil => rfl
  | cons c xs ih =>
    have hc : c ≠ ':' := h c (List.mem_cons_self c xs)
    have ih2 := ih fun d hd => h d (List.mem_cons_of_mem c hd)
    simp [split_colon, hc, ih2]

theorem split_colon_append (xs ys : List Char) (h : ∀ c ∈ xs, c ≠ ':') :
    split_colon (xs ++ ':' :: ys) = xs :: split_colon ys := by
  induction xs with
  | nil => simp [split_colon]
  | cons c xs ih =>
    have hc : c ≠ ':' := h c (List.mem_cons_self c xs)
    have ih2 := ih fun d hd => h d (List.mem_cons_of_mem c hd)
    simp [split_colon, hc, ih2]

theorem foldlM_option_none {α β : Type} (f : β → α → Option β) (l : List α) (x : α)
    (hx : x ∈ l) (hfail : ∀ acc, f acc x = none) :
    ∀ init, List.foldlM f init l = none := by
  induction l with
  | nil => cases hx
  | cons a l ih =>
    intro init
    rcases List.mem_cons.mp hx with h | h
    · subst h
      simp [List.foldlM, hfail init]
    · cases hf : f init a with
      | none => simp [List.foldlM, hf]
      | some b => simp [List.foldlM, hf, ih h]

theorem hex_digit_val_lt (c : Char) (d : Nat) (h : hex_digit_val c = some d) : d < 16 := by
  unfold hex_digit_val at h
  split at h
  · injection h with h2
    omega
  · split at h
    · injection h with h2
      omega
    · split at h
      · injection h with h2
        omega
      · cases h

theorem split_colon_canonical (b5 b4 b3 b2 b1 b0 : Nat) (h5 : b5 < 256) (h4 : b4 < 256)
    (h3 : b3 < 256) (h2 : b2 < 256) (h1 : b1 < 256) (h0 : b0 < 256) :
    split_colon (canonical_address_chars b5 b4 b3 b2 b1 b0) =
      [hex2_upper b5, hex2_upper b4, hex2_upper b3, hex2_upper b2, hex2_upper b1,
        hex2_upper b0] := by
  unfold canonical_address_chars
  rw [split_colon_append _ _ (hex2_upper_no_colon b5 h5),
    split_colon_append _ _ (hex2_upper_no_colon b4 h4),
    split_colon_append _ _ (hex2_upper_no_colon b3 h3),
    split_colon_append _ _ (hex2_upper_no_colon b2 h2),
    split_colon_append _ _ (hex2_upper_no_colon b1 h1),
    split_colon_no_sep _ (hex2_upper_no_colon b0 h0)]

theorem parse_canonical (b5 b4 b3 b2 b1 b0 : Nat) (h5 : b5 < 256) (h4 : b4 < 256)
    (h3 : b3 < 256) (h2 : b2 < 256) (h1 : b1 < 256) (h0 : b0 < 256) :
    bluetooth_address_from_str (canonical_address_chars b5 b4 b3 b2 b1 b0) =
      some (address_of_octets b5 b4 b3 b2 b1 b0) := by
  unfold bluetooth_address_from_str
  rw [if_neg (fun hcon => hcon rfl),
    split_colon_canonical b5 b4 b3 b2 b1 b0 h5 h4 h3 h2 h1 h0]
  simp only [List.foldlM, hex2_upper_length, u8_from_str_radix_16_hex2 b5 h5,
    u8_from_str_radix_16_hex2 b4 h4, u8_from_str_radix_16_hex2 b3 h3,
    u8_from_str_radix_16_hex2 b2 h2, u8_from_str_radix_16_hex2 b1 h1,
    u8_from_str_radix_16_hex2 b0 h0]
  simp only [ne_eq, Option.map_some]
  simp [address_of_octets, Option.some.injEq]
  omega

theorem display_address_of_octets (b5 b4 b3 b2 b1 b0 : Nat) (h5 : b5 < 256) (h4 : b4 < 256)
    (h3 : b3 < 256) (h2 : b2 < 256) (h1 : b1 < 256) (h0 : b0 < 256) :
    bluetooth_address_display (address_of_octets b5 b4 b3 b2 b1 b0) =
      canonical_address_chars b5 b4 b3 b2 b1 b0 := by
  have e5 : address_of_octets b5 b4 b3 b2 b1 b0 >>> 40 % 256 = b5 := by
    unfold address_of_octets
    rw [Nat.shiftRight_eq_div_pow]
    omega
  have e4 : address_of_octets b5 b4 b3 b2 b1 b0 >>> 32 % 256 = b4 := by
    unfold address_of_octets
    rw [Nat.shiftRight_eq_div_pow]
    omega
  have e3 : address_of_octets b5 b4 b3 b2 b1 b0 >>> 24 % 256 = b3 := by
    unfold address_of_octets
    rw [Nat.shiftRight_eq_div_pow]
    omega
  have e2 : address_of_octets b5 b4 b3 b2 b1 b0 >>> 16 % 256 = b2 := by
    unfold address_of_octets
    rw [Nat.shiftRight_eq_div_pow]
    omega
  have e1 : address_of_octets b5 b4 b3 b2 b1 b0 >>> 8 % 256 = b1 := by
    unfold address_of_octets
    rw [Nat.shiftRight_eq_div_pow]
    omega
  have e0 : address_of_octets b5 b4 b3 b2 b1 b0 % 256 = b0 := by
    unfold address_of_octets
    omega
  unfold bluetooth_address_display canonical_address_chars
  rw [e5, e4, e3, e2, e1, e0]

theorem u8_from_str_radix_16_pair_none (c1 c2 : Char)
    (hbad : ¬(((hex_digit_val c1).isSome ∧ (hex_digit_val c2).isSome) ∨
      (c1 = '+' ∧ (hex_digit_val c2).isSome))) :
    u8_from_str_radix_16 [c1, c2] = none := by
  show (if c1 = '+' then if ([c2] : List Char) = [] then none else u8_hex_fold [c2] 0
    else u8_hex_fold [c1, c2] 0) = none
  by_cases hp : c1 = '+'
  · rw [if_pos hp, if_neg (by simp)]
    cases hdv : hex_digit_val c2 with
    | none => simp [u8_hex_fold, hdv]
    | some d => exact absurd (Or.inr ⟨hp, by simp [hdv]⟩) hbad
  · rw [if_neg hp]
    cases hdv1 : hex_digit_val c1 with
    | none => simp [u8_hex_fold, hdv1]
    | some d1 =>
      cases hdv2 : hex_digit_val c2 with
      | none =>
        have hd1 : d1 < 16 := hex_digit_val_lt c1 d1 hdv1
        have hov : ¬(0 * 16 + d1 > 255) := by omega
        simp [u8_hex_fold, hdv1, hdv2, hov]
      | some d2 => exact absurd (Or.inl ⟨by simp [hdv1], by simp [hdv2]⟩) hbad

/-- C7 counterexample: the claim says parsing any string containing a
non-hex octet fails with a format error. `u8::from_str_radix` accepts an
optional leading `'+'` sign, so the 17-character string
`"00:11:22:33:FF:+E"` — whose last colon-separated octet `"+E"` contains
`'+'`, not a hex digit — parses successfully (to the address whose last
octet is `0x0E`). -/
theorem parse_accepts_plus_octet :
    bluetooth_address_from_str ("00:11:22:33:FF:+E".toList) =
      some (address_of_octets 0 17 34 51 255 14) ∧
    "+E".toList ∈ split_colon ("00:11:22:33:FF:+E".toList) ∧
    hex_digit_val '+' = none := by
  refine ⟨by decide, by decide, rfl⟩

/-- C7 amended: parse-then-format is the identity on every canonical
six-octet string; parsing a string whose length differs from 17 fails;
parsing a string with a colon-separated segment of length ≠ 2 fails; and
parsing fails when some two-character segment is neither two hex digits
nor a `'+'` followed by one hex digit (the one shape beyond the claim's
"two hex digits" that `u8::from_str_radix`'s optional leading sign
accepts). -/
theorem bluetooth_address_codec_shape :
    (∀ b5 b4 b3 b2 b1 b0 : Nat, b5 < 256 → b4 < 256 → b3 < 256 → b2 < 256 → b1 < 256 →
      b0 < 256 →
      bluetooth_address_from_str (canonical_address_chars b5 b4 b3 b2 b1 b0) =
        some (address_of_octets b5 b4 b3 b2 b1 b0) ∧
      bluetooth_address_display (address_of_octets b5 b4 b3 b2 b1 b0) =
        canonical_address_chars b5 b4 b3 b2 b1 b0) ∧
    (∀ s : List Char, s.length ≠ 17 → bluetooth_address_from_str s = none) ∧
    (∀ (s : List Char) (seg : List Char), seg ∈ split_colon s → seg.length ≠ 2 →
      bluetooth_address_from_str s = none) ∧
    (∀ (s : List Char) (c1 c2 : Char), [c1, c2] ∈ split_colon s →
      ¬(((hex_digit_val c1).isSome ∧ (hex_digit_val c2).isSome) ∨
        (c1 = '+' ∧ (hex_digit_val c2).isSome)) →
      bluetooth_address_from_str s = none) := by
  refine ⟨?_, ?_, ?_, ?_⟩
  · intro b5 b4 b3 b2 b1 b0 h5 h4 h3 h2 h1 h0
    exact ⟨parse_canonical b5 b4 b3 b2 b1 b0 h5 h4 h3 h2 h1 h0,
      display_address_of_octets b5 b4 b3 b2 b1 b0 h5 h4 h3 h2 h1 h0⟩
  · intro s hs
    unfold bluetooth_address_from_str
    rw [if_pos hs]
  · intro s seg hmem hlen
    unfold bluetooth_address_from_str
    by_cases hs : s.length ≠ 17
    · rw [if_pos hs]
    · rw [if_neg hs]
      exact foldlM_option_none _ _ seg hmem (fun acc => by simp [hlen]) 0
  · intro s c1 c2 hmem hbad
    unfold bluetooth_address_from_str
    by_cases hs : s.length ≠ 17
    · rw [if_pos hs]
    · rw [if_neg hs]
      refine foldlM_option_none _ _ [c1, c2] hmem (fun acc => ?_) 0
      simp [u8_from_str_radix_16_pair_none c1 c2 hbad]

/-- Witness for the amended C7: the repository's own example address
`"00:11:22:33:FF:EE"` round-trips; `"abc"` (wrong length), a string with a
3-character octet, and a string with octet `"G1"` all fail to parse. -/
theorem bluetooth_address_codec_shape_witness :
    (bluetooth_address_from_str (canonical_address_chars 0 17 34 51 255 238) =
        some (address_of_octets 0 17 34 51 255 238) ∧
      bluetooth_address_display (address_of_octets 0 17 34 51 255 238) =
        canonical_address_chars 0 17 34 51 255 238) ∧
    bluetooth_address_from_str ("abc".toList) = none ∧
    bluetooth_address_from_str ("001:11:22:33:FF:E".toList) = none ∧
    bluetooth_address_from_str ("G1:11:22:33:FF:EE".toList) = none := by
  refine ⟨(bluetooth_address_codec_shape.1 0 17 34 51 255 238 (by decide) (by decide)
      (by decide) (by decide) (by decide) (by decide)), ?_, ?_, ?_⟩
  · exact bluetooth_address_codec_shape.2.1 ("abc".toList) (by decide)
  · exact bluetooth_address_codec_shape.2.2.1 ("001:11:22:33:FF:E".toList)
      ("001".toList) (by decide) (by decide)
  · exact bluetooth_address_codec_shape.2.2.2 ("G1:11:22:33:FF:EE".toList) 'G' '1'
      (by decide) (by decide)

/-! ## Claim C6 — the device filter of `interpret_object` -/

theorem DbusValue.asBool_eq_some (v : DbusValue) (b : Bool) :
    v.asBool = some b ↔ v = .vBool b := by
  cases v <;> simp [DbusValue.asBool]

theorem DbusValue.asStr_eq_some (v : DbusValue) (s : String) :
    v.asStr = some s ↔ v = .vStr s := by
  cases v <;> simp [DbusValue.asStr]

theorem DbusValue.asArr_eq_some (v : DbusValue) (a : List DbusValue) :
    v.asArr = some a ↔ v = .vArr a := by
  cases v <;> simp [DbusValue.asArr]

theorem uuid_scan_go (arr : List DbusValue) (p : Bool × Bool) :
    ((List.foldl
        (fun p u =>
          match u with
          | DbusValue.vStr s =>
            if s = BLE_GATT_SERVICE_ENVIRONMENTAL_SENSING then (true, p.2)
            else if s = BLE_GATT_SERVICE_WEATHERSTATION then (p.1, true)
            else p
          | _ => p)
        p arr).1 = true ↔
      (p.1 = true ∨ DbusValue.vStr BLE_GATT_SERVICE_ENVIRONMENTAL_SENSING ∈ arr)) ∧
    ((List.foldl
        (fun p u =>
          match u with
          | DbusValue.vStr s =>
            if s = BLE_GATT_SERVICE_ENVIRONMENTAL_SENSING then (true, p.2)
            else if s = BLE_GATT_SERVICE_WEATHERSTATION then (p.1, true)
            else p
          | _ => p)
        p arr).2 = true ↔
      (p.2 = true ∨ DbusValue.vStr BLE_GATT_SERVICE_WEATHERSTATION ∈ arr)) := by
  have hne : BLE_GATT_SERVICE_WEATHERSTATION ≠ BLE_GATT_SERVICE_ENVIRONMENTAL_SENSING := by
    decide
  have hne2 : BLE_GATT_SERVICE_ENVIRONMENTAL_SENSING ≠ BLE_GATT_SERVICE_WEATHERSTATION :=
    fun h => hne h.symm
  induction arr generalizing p with
  | nil => simp
  | cons u arr ih =>
    cases u with
    | vStr s =>
      by_cases hes : s = BLE_GATT_SERVICE_ENVIRONMENTAL_SENSING
      · subst hes
        simp [List.foldl_cons, ih, hne, hne2]
      · by_cases hws : s = BLE_GATT_SERVICE_WEATHERSTATION
        · subst hws
          simp [List.foldl_cons, hne, hne2, ih]
        · have hes2 : ¬(BLE_GATT_SERVICE_ENVIRONMENTAL_SENSING = s) := fun h => hes h.symm
          have hws2 : ¬(BLE_GATT_SERVICE_WEATHERSTATION = s) := fun h => hws h.symm
          simp [List.foldl_cons, hes, hws, hes2, hws2, ih]
    | vBool b => simp [List.foldl_cons, ih]
    | vArr a => simp [List.foldl_cons, ih]
    | vOther => simp [List.foldl_cons, ih]

theorem uuid_scan_spec (arr : List DbusValue) :
    ((uuid_scan arr).1 = true ↔
      DbusValue.vStr BLE_GATT_SERVICE_ENVIRONMENTAL_SENSING ∈ arr) ∧
    ((uuid_scan arr).2 = true ↔ DbusValue.vStr BLE_GATT_SERVICE_WEATHERSTATION ∈ arr) := by
  have h := uuid_scan_go arr (false, false)
  simpa [uuid_scan] using h

theorem interpret_object_device_path (path intf dev : List Char)
    (interfaces : List (String × PropBag))
    (hpath : bluez_path_match path = some (intf, some dev)) :
    interpret_object path interfaces = interpret_device interfaces := by
  unfold interpret_object
  rw [hpath]

theorem interpret_object_adapter_path (path intf : List Char)
    (interfaces : List (String × PropBag))
    (hpath : bluez_path_match path = some (intf, none)) :
    interpret_object path interfaces = interpret_adapter interfaces := by
  unfold interpret_object
  rw [hpath]

theorem interpret_object_no_path (path : List Char)
    (interfaces : List (String × PropBag))
    (hpath : bluez_path_match path = none) :
    interpret_object path interfaces = none := by
  unfold interpret_object
  rw [hpath]

/-- C6: `interpret_object` yields a device entity only for a
`PATH_RE`-matching device path whose `org.bluez.Device1` bag advertises
*both* fixed service-UUID constants by exact case-sensitive string match,
and with the `connected`/`address`/`services_resolved` fields taken from
the bag's `Connected`/`Address`/`ServicesResolved` properties (the address
through the address codec). If either UUID is absent, or the address
string fails to parse, it yields `none` rather than an error. -/
theorem interpret_object_device_filter :
    (∀ (path : List Char) (interfaces : List (String × PropBag)) (addr : Nat)
        (connected resolved : Bool),
      interpret_object path interfaces =
          some (BluezObject.weatherstationDevice addr connected resolved) →
      ∃ (intf dev : List Char) (bag : PropBag) (uuid_array : List DbusValue)
          (address_str : String),
        bluez_path_match path = some (intf, some dev) ∧
        sassoc_get interfaces "org.bluez.Device1" = some bag ∧
        sassoc_get bag "UUIDs" = some (DbusValue.vArr uuid_array) ∧
        DbusValue.vStr BLE_GATT_SERVICE_ENVIRONMENTAL_SENSING ∈ uuid_array ∧
        DbusValue.vStr BLE_GATT_SERVICE_WEATHERSTATION ∈ uuid_array ∧
        sassoc_get bag "Connected" = some (DbusValue.vBool connected) ∧
        sassoc_get bag "Address" = some (DbusValue.vStr address_str) ∧
        bluetooth_address_from_str address_str.toList = some addr ∧
        sassoc_get bag "ServicesResolved" = some (DbusValue.vBool resolved)) ∧
    (∀ (path : List Char) (interfaces : List (String × PropBag)) (intf dev : List Char)
        (bag : PropBag) (uuid_array : List DbusValue),
      bluez_path_match path = some (intf, some dev) →
      sassoc_get interfaces "org.bluez.Device1" = some bag →
      sassoc_get bag "UUIDs" = some (DbusValue.vArr uuid_array) →
      (DbusValue.vStr BLE_GATT_SERVICE_ENVIRONMENTAL_SENSING ∉ uuid_array ∨
        DbusValue.vStr BLE_GATT_SERVICE_WEATHERSTATION ∉ uuid_array) →
      interpret_object path interfaces = none) ∧
    (∀ (path : List Char) (interfaces : List (String × PropBag)) (intf dev : List Char)
        (bag : PropBag) (uuid_array : List DbusValue) (connected : Bool)
        (address_str : String),
      bluez_path_match path = some (intf, some dev) →
      sassoc_get interfaces "org.bluez.Device1" = some bag →
      sassoc_get bag "UUIDs" = some (DbusValue.vArr uuid_array) →
      sassoc_get bag "Connected" = some (DbusValue.vBool connected) →
      sassoc_get bag "Address" = some (DbusValue.vStr address_str) →
      bluetooth_address_from_str address_str.toList = none →
      interpret_object path interfaces = none) := by
  refine ⟨?_, ?_, ?_⟩
  · intro path interfaces addr connected resolved h
    cases hpm : bluez_path_match path with
    | none =>
      rw [interpret_object_no_path path interfaces hpm] at h
      cases h
    | some caps =>
      obtain ⟨intf, dev⟩ := caps
      cases dev with
      | none =>
        rw [interpret_object_adapter_path path intf interfaces hpm] at h
        unfold interpret_adapter at h
        split at h
        · cases h
        · split at h
          · cases h
          · split at h
            · cases h
            · cases h
      | some dev =>
        rw [interpret_object_device_path path intf dev interfaces hpm] at h
        unfold interpret_device at h
        split at h
        · cases h
        · rename_i bluez_device hbag
          split at h
          · cases h
          · rename_i uuids_val huuids
            split at h
            · cases h
            · rename_i uuid_array harr
              split at h
              · rename_i hcond
                split at h
                · cases h
                · rename_i connected_val hconnval
                  split at h
                  · cases h
                  · rename_i cb hcb
                    split at h
                    · cases h
                    · rename_i address_val haddrval
                      split at h
                      · cases h
                      · rename_i address_str hstr
                        split at h
                        · cases h
                        · rename_i a hparse
                          split at h
                          · cases h
                          · rename_i resolved_val hresval
                            split at h
                            · cases h
                            · rename_i rb hrb
                              rw [Option.some.injEq,
                                BluezObject.weatherstationDevice.injEq] at h
                              obtain ⟨ha, hc, hr⟩ := h
                              subst ha
                              subst hc
                              subst hr
                              refine ⟨intf, dev, bluez_device, uuid_array, address_str,
                                rfl, hbag, ?_, ?_, ?_, ?_, ?_, hparse, ?_⟩
                              · rw [huuids, (DbusValue.asArr_eq_some uuids_val
                                  uuid_array).mp harr]
                              · exact (uuid_scan_spec uuid_array).1.mp hcond.1
                              · exact (uuid_scan_spec uuid_array).2.mp hcond.2
                              · rw [hconnval, (DbusValue.asBool_eq_some connected_val
                                  cb).mp hcb]
                              · rw [haddrval, (DbusValue.asStr_eq_some address_val
                                  address_str).mp hstr]
                              · rw [hresval, (DbusValue.asBool_eq_some resolved_val
                                  rb).mp hrb]
              · cases h
  · intro path interfaces intf dev bag uuid_array hpath hbag huuids hmem
    rw [interpret_object_device_path path intf dev interfaces hpath]
    unfold interpret_device
    simp only [hbag, huuids, DbusValue.asArr]
    have hnc : ¬((uuid_scan uuid_array).1 = true ∧ (uuid_scan uuid_array).2 = true) := by
      intro hc
      rcases hmem with hm | hm
      · exact hm ((uuid_scan_spec uuid_array).1.mp hc.1)
      · exact hm ((uuid_scan_spec uuid_array).2.mp hc.2)
    rw [if_neg hnc]
  · intro path interfaces intf dev bag uuid_array connected address_str hpath hbag huuids
      hconn haddr hparse
    rw [interpret_object_device_path path intf dev interfaces hpath]
    unfold interpret_device
    simp only [hbag, huuids, DbusValue.asArr]
    by_cases hcond : (uuid_scan uuid_array).1 = true ∧ (uuid_scan uuid_array).2 = true
    · rw [if_pos hcond]
      simp only [hconn, DbusValue.asBool, haddr, DbusValue.asStr, hparse]
    · rw [if_neg hcond]

/-- Witness for C6: a device path with a bag advertising both UUIDs yields
the correctly-populated device entity; the same path with only one of the
two UUIDs yields `none`; both UUIDs but an unparseable address string also
yields `none`. -/
theorem interpret_object_device_filter_witness :
    interpret_object ("/org/bluez/hci0/dev_00_11_22_33_FF_EE".toList)
        [("org.bluez.Device1",
          [("UUIDs", DbusValue.vArr
              [DbusValue.vStr BLE_GATT_SERVICE_ENVIRONMENTAL_SENSING,
                DbusValue.vStr BLE_GATT_SERVICE_WEATHERSTATION]),
            ("Connected", DbusValue.vBool true),
            ("Address", DbusValue.vStr "00:11:22:33:FF:EE"),
            ("ServicesResolved", DbusValue.vBool false)])] =
      some (BluezObject.weatherstationDevice (address_of_octets 0 17 34 51 255 238)
        true false) ∧
    interpret_object ("/org/bluez/hci0/dev_00_11_22_33_FF_EE".toList)
        [("org.bluez.Device1",
          [("UUIDs", DbusValue.vArr
              [DbusValue.vStr BLE_GATT_SERVICE_ENVIRONMENTAL_SENSING])])] =
      none ∧
    interpret_object ("/org/bluez/hci0/dev_00_11_22_33_FF_EE".toList)
        [("org.bluez.Device1",
          [("UUIDs", DbusValue.vArr
              [DbusValue.vStr BLE_GATT_SERVICE_ENVIRONMENTAL_SENSING,
                DbusValue.vStr BLE_GATT_SERVICE_WEATHERSTATION]),
            ("Connected", DbusValue.vBool true),
            ("Address", DbusValue.vStr "garbage")])] =
      none := by
  refine ⟨by decide, ?_, ?_⟩
  · exact interpret_object_device_filter.2.1
      ("/org/bluez/hci0/dev_00_11_22_33_FF_EE".toList)
      [("org.bluez.Device1",
        [("UUIDs", DbusValue.vArr
            [DbusValue.vStr BLE_GATT_SERVICE_ENVIRONMENTAL_SENSING])])]
      ("hci0".toList) ("00_11_22_33_FF_EE".toList)
      [("UUIDs", DbusValue.vArr [DbusValue.vStr BLE_GATT_SERVICE_ENVIRONMENTAL_SENSING])]
      [DbusValue.vStr BLE_GATT_SERVICE_ENVIRONMENTAL_SENSING]
      rfl rfl rfl
      (Or.inr (by
        intro hmem
        simp only [List.mem_singleton] at hmem
        rw [DbusValue.vStr.injEq] at hmem
        exact absurd hmem (by decide)))
  · exact interpret_object_device_filter.2.2
      ("/org/bluez/hci0/dev_00_11_22_33_FF_EE".toList)
      [("org.bluez.Device1",
        [("UUIDs", DbusValue.vArr
            [DbusValue.vStr BLE_GATT_SERVICE_ENVIRONMENTAL_SENSING,
              DbusValue.vStr BLE_GATT_SERVICE_WEATHERSTATION]),
          ("Connected", DbusValue.vBool true),
          ("Address", DbusValue.vStr "garbage")])]
      ("hci0".toList) ("00_11_22_33_FF_EE".toList)
      [("UUIDs", DbusValue.vArr
          [DbusValue.vStr BLE_GATT_SERVICE_ENVIRONMENTAL_SENSING,
            DbusValue.vStr BLE_GATT_SERVICE_WEATHERSTATION]),
        ("Connected", DbusValue.vBool true),
        ("Address", DbusValue.vStr "garbage")]
      [DbusValue.vStr BLE_GATT_SERVICE_ENVIRONMENTAL_SENSING,
        DbusValue.vStr BLE_GATT_SERVICE_WEATHERSTATION]
      true "garbage"
      rfl rfl rfl rfl rfl rfl
